import Mathlib

/-!
Verification of `sveltia-github-auth` (`src/index.js`), a Cloudflare Worker that
relays the GitHub OAuth authorization-code flow for Sveltia CMS.

The worker is embedded shallowly: request data (method, pathname, query
parameters, the `Cookie` header) and the environment variables are explicit
values; the two platform effects — the random UUID used as CSRF token and the
outbound token-exchange `fetch` — are oracle parameters (`uuid`,
`TokenExchangeResult`).  JavaScript `undefined`-or-string values are
`Option String`, with `jsTruthy` modelling JS truthiness (undefined and the
empty string are falsy).
-/

namespace SveltiaAuth

/-- JS truthiness of a string-or-undefined value: `undefined` and `""` are falsy. -/
def jsTruthy : Option String → Bool
  | none => false
  | some s => !(s == "")

/-- Character class `[0-9a-f]` (codepoints 48–57 and 97–102). -/
def isLowerHexChar (c : Char) : Bool :=
  (48 ≤ c.toNat && c.toNat ≤ 57) || (97 ≤ c.toNat && c.toNat ≤ 102)

/-- Exactly 32 lowercase hexadecimal characters. -/
def isHex32 (s : String) : Bool :=
  s.toList.length == 32 && s.toList.all isLowerHexChar

/-! ## The allow-list pattern regex (`handleAuth`, lines 74–85)

`escapeRegExp` (line 7) escapes every regex metacharacter
(`. * + ? ^ $ { } ( ) | [ ] \`), so every character of the escaped pattern is a
literal atom.  `handleAuth` then runs `.replace('\\*', '.+')` on the escaped
string: a `*` occurs in the escaped string only as the second character of an
escape unit `\*` (no `*` survives unescaped), so the first occurrence of the
substring `\*` is exactly the escape unit of the pattern's first `*`.  At the
token level the regex `^…$` is therefore: one literal token per pattern
character, except the first `*`, which becomes the token `.+`. -/

/-- A token of the compiled pattern regex: a literal character, or `.+`. -/
inductive Tok where
  | lit (c : Char)
  | dotPlus
deriving DecidableEq

/-- Compile a (trimmed) pattern to regex tokens:
`escapeRegExp(str).replace('\\*', '.+')` — every character literal, first `*`
replaced by `.+`. -/
def buildRegex : List Char → List Tok
  | [] => []
  | c :: cs => if c = '*' then Tok.dotPlus :: cs.map Tok.lit else Tok.lit c :: buildRegex cs

/-- What the JS regex `.` matches (no `s` flag): any character except the four
line terminators. -/
def dotMatches (c : Char) : Bool :=
  !(c == '\n' || c == '\r' || c.toNat == 0x2028 || c.toNat == 0x2029)

/-- Full-string match of a token list (the source regex is anchored `^…$`, no
`m` flag, so it must consume the whole subject).  `.+` is one-or-more
`dotMatches` characters, with backtracking. -/
def tokMatch : List Tok → List Char → Bool
  | [], [] => true
  | [], _ :: _ => false
  | Tok.lit _ :: _, [] => false
  | Tok.lit c :: ts, d :: ds => c == d && tokMatch ts ds
  | Tok.dotPlus :: _, [] => false
  | Tok.dotPlus :: ts, d :: ds => dotMatches d && (tokMatch ts ds || tokMatch (Tok.dotPlus :: ts) ds)

/-- JS whitespace for `String.prototype.trim`: WhiteSpace ∪ LineTerminator
(space, tab, LF, VT, FF, CR, NBSP, BOM, the Unicode space separators, and the
two Unicode line terminators). -/
def isJsSpace (c : Char) : Bool :=
  c == ' ' || c == '\t' || c == '\n' || c == '\r' || c == '\x0b' || c == '\x0c' ||
  c.toNat == 0xa0 || c.toNat == 0xfeff || c.toNat == 0x1680 ||
  (0x2000 ≤ c.toNat && c.toNat ≤ 0x200a) ||
  c.toNat == 0x2028 || c.toNat == 0x2029 || c.toNat == 0x202f ||
  c.toNat == 0x205f || c.toNat == 0x3000

/-- `str.trim()`: drop JS whitespace from both ends. -/
def trimChars (l : List Char) : List Char :=
  ((l.dropWhile isJsSpace).reverse.dropWhile isJsSpace).reverse

/-- One allow-list pattern against the requesting domain:
`(domain ?? '').match(new RegExp('^' + escapeRegExp(str.trim()).replace('\\*', '.+') + '$'))`. -/
def patternMatches (pat domain : String) : Bool :=
  tokMatch (buildRegex (trimChars pat.toList)) domain.toList

/-- `ALLOWED_DOMAINS.split(/,/)`: split on every comma, keeping empty pieces. -/
def splitComma : List Char → List (List Char)
  | [] => [[]]
  | c :: cs =>
    if c = ',' then [] :: splitComma cs
    else
      match splitComma cs with
      | [] => [[c]]
      | p :: ps => (c :: p) :: ps

/-- The environment variables the worker reads (absent variable = `none`). -/
structure Env where
  ALLOWED_DOMAINS : Option String
  GITHUB_CLIENT_ID : Option String
  GITHUB_CLIENT_SECRET : Option String
  GITHUB_HOSTNAME : Option String
deriving DecidableEq

/-- The whole allow-list test of `handleAuth` (lines 74–80):
`ALLOWED_DOMAINS && !ALLOWED_DOMAINS.split(/,/).some(str => (domain ?? '').match(…))`. -/
def domainNotAllowed (env : Env) (siteId : Option String) : Bool :=
  jsTruthy env.ALLOWED_DOMAINS &&
    !(((splitComma (env.ALLOWED_DOMAINS.getD "").toList).map String.mk).any fun str =>
        patternMatches str (siteId.getD ""))

/-! ## The response renderer (`outputHTML`, lines 19–53) -/

/-- Lowercase hex digit (as emitted by `JSON.stringify` in `\u00XX` escapes). -/
def hexDigitLower (n : Nat) : Char :=
  if n < 10 then Char.ofNat (48 + n) else Char.ofNat (87 + n)

/-- How `JSON.stringify` escapes one character inside a string literal. -/
def jsonEscapeChar (c : Char) : String :=
  if c = '"' then "\\\""
  else if c = '\\' then "\\\\"
  else if c = '\x08' then "\\b"
  else if c = '\x09' then "\\t"
  else if c = '\x0a' then "\\n"
  else if c = '\x0c' then "\\f"
  else if c = '\x0d' then "\\r"
  else if c.toNat < 32 then "\\u00" ++ String.mk [hexDigitLower (c.toNat / 16), hexDigitLower (c.toNat % 16)]
  else String.mk [c]

/-- `JSON.stringify` of a string value. -/
def jsonStr (s : String) : String :=
  "\"" ++ String.join (s.toList.map jsonEscapeChar) ++ "\""

/-- The argument object of `outputHTML`; `none` is JS `undefined`. -/
structure OutputArgs where
  provider : String
  token : Option String
  error : Option String
  errorCode : Option String
deriving DecidableEq

/-- `const state = error ? 'error' : 'success'` (line 26). -/
def renderState (args : OutputArgs) : String :=
  if jsTruthy args.error then "error" else "success"

/-- `JSON.stringify(content)` for
`content = error ? { provider, error, errorCode } : { provider, token }`
(line 27); `JSON.stringify` omits keys whose value is `undefined`, in insertion
order. -/
def renderContent (args : OutputArgs) : String :=
  if jsTruthy args.error then
    "\x7b\"provider\":" ++ jsonStr args.provider ++ ",\"error\":" ++ jsonStr (args.error.getD "") ++
      (match args.errorCode with
       | none => ""
       | some ec => ",\"errorCode\":" ++ jsonStr ec) ++ "\x7d"
  else
    "\x7b\"provider\":" ++ jsonStr args.provider ++
      (match args.token with
       | none => ""
       | some t => ",\"token\":" ++ jsonStr t) ++ "\x7d"

/-- The string posted to the opener on handshake completion:
`'authorization:${provider}:${state}:${JSON.stringify(content)}'` (line 36). -/
def messageString (args : OutputArgs) : String :=
  "authorization:" ++ args.provider ++ ":" ++ renderState args ++ ":" ++ renderContent args

/-- The HTML template body of the renderer response (lines 30–44). -/
def htmlBody (args : OutputArgs) : String :=
  "\n      <!doctype html><html><body><script>\n        (() => \x7b\n          window.addEventListener(\x27message\x27, (\x7b data, origin \x7d) => \x7b\n            if (data === \x27authorizing:" ++
  args.provider ++
  "\x27) \x7b\n              window.opener?.postMessage(\n                \x27" ++
  messageString args ++
  "\x27,\n                origin\n              );\n            \x7d\n          \x7d);\n          window.opener?.postMessage(\x27authorizing:" ++
  args.provider ++
  "\x27, \x27*\x27);\n        \x7d)();\n      </script></body></html>\n    "

/-- An HTTP response: status, body, and headers in order. -/
structure Response where
  status : Nat
  body : String
  headers : List (String × String)
deriving DecidableEq

/-- The renderer (`outputHTML`): a 200 HTML response that also deletes the CSRF
cookie (lines 45–52). -/
def outputHTML (args : OutputArgs) : Response :=
  ⟨200, htmlBody args,
   [("Content-Type", "text/html;charset=UTF-8"),
    ("Set-Cookie", "csrf-token=deleted; HttpOnly; Max-Age=0; Path=/; SameSite=Lax; Secure")]⟩

/-! ## `URLSearchParams` serialization (`handleAuth`, lines 98–104)

`params.toString()` emits `application/x-www-form-urlencoded`: each key and
value is UTF-8 encoded byte-wise; bytes for ASCII alphanumerics and `*`, `-`,
`.`, `_` stay themselves, a space becomes `+`, every other byte becomes
`%XX` with uppercase hex. -/

/-- UTF-8 bytes of a character (as naturals below 256). -/
def utf8Bytes (c : Char) : List Nat :=
  let n := c.toNat
  if n < 0x80 then [n]
  else if n < 0x800 then [0xc0 + n / 64, 0x80 + n % 64]
  else if n < 0x10000 then [0xe0 + n / 4096, 0x80 + (n / 64) % 64, 0x80 + n % 64]
  else [0xf0 + n / 262144, 0x80 + (n / 4096) % 64, 0x80 + (n / 64) % 64, 0x80 + n % 64]

/-- Uppercase hex digit. -/
def hexDigitUpper (n : Nat) : Char :=
  if n < 10 then Char.ofNat (48 + n) else Char.ofNat (55 + n)

/-- Form-urlencoded encoding of one byte. -/
def formEncodeByte (n : Nat) : List Char :=
  if n = 32 then ['+']
  else if (48 ≤ n && n ≤ 57) || (65 ≤ n && n ≤ 90) || (97 ≤ n && n ≤ 122) ||
          n = 42 || n = 45 || n = 46 || n = 95 then [Char.ofNat n]
  else ['%', hexDigitUpper (n / 16), hexDigitUpper (n % 16)]

/-- Encode a byte list. -/
def encodeBytesList : List Nat → List Char
  | [] => []
  | b :: bs => formEncodeByte b ++ encodeBytesList bs

/-- Encode a character list (UTF-8 then byte-wise). -/
def encodeChars : List Char → List Char
  | [] => []
  | c :: cs => encodeBytesList (utf8Bytes c) ++ encodeChars cs

/-- Form-urlencode one key or value. -/
def formEncode (s : String) : String :=
  String.mk (encodeChars s.toList)

/-- `new URLSearchParams({…}).toString()`: `k₁=v₁&k₂=v₂&…` in insertion order. -/
def serializeParams : List (String × String) → String
  | [] => ""
  | [p] => formEncode p.1 ++ "=" ++ formEncode p.2
  | p :: ps => formEncode p.1 ++ "=" ++ formEncode p.2 ++ "&" ++ serializeParams ps

/-! ## The CSRF token -/

/-- `csrfToken = globalThis.crypto.randomUUID().replaceAll('-', '')` (line 88):
drop every `-`. -/
def removeDashes (s : String) : String :=
  String.mk (s.toList.filter fun c => !(c == '-'))

/-- The character list `a-b-c-d-e` of a hyphenated UUID. -/
def uuidSegments (a b c d e : List Char) : List Char :=
  a ++ ('-' :: (b ++ ('-' :: (c ++ ('-' :: (d ++ ('-' :: e)))))))

/-- The format `crypto.randomUUID` guarantees (a platform API, not repository
code, hence taken as a contract): lowercase-hex groups of 8, 4, 4, 4 and 12
characters joined by hyphens. -/
def IsUuid (s : String) : Prop :=
  ∃ a b c d e : List Char,
    s.toList = uuidSegments a b c d e ∧
    a.length = 8 ∧ b.length = 4 ∧ c.length = 4 ∧ d.length = 4 ∧ e.length = 12 ∧
    (a ++ b ++ c ++ d ++ e).all isLowerHexChar = true

/-! ## Cookie extraction (`handleCallback`, lines 131–132)

`headers.get('Cookie')?.match(/\bcsrf-token=([0-9a-f]{32})\b/) ?? []` and the
capture group is taken.  The regex engine scans for the leftmost position where
a word boundary is followed by the literal `csrf-token=`, exactly 32 lowercase
hex characters and another word boundary; the capture is those 32 characters. -/

/-- JS `\w`: `[A-Za-z0-9_]`. -/
def isWordChar (c : Char) : Bool :=
  (65 ≤ c.toNat && c.toNat ≤ 90) || (97 ≤ c.toNat && c.toNat ≤ 122) ||
  (48 ≤ c.toNat && c.toNat ≤ 57) || c = '_'

/-- `\b` before a word character: at the start, or after a non-word character. -/
def boundaryBefore : Option Char → Bool
  | none => true
  | some c => !(isWordChar c)

/-- `\b` after a word character: at the end, or before a non-word character. -/
def boundaryAfter : List Char → Bool
  | [] => true
  | c :: _ => !(isWordChar c)

/-- Strip a literal label from the front of a list, if present. -/
def stripLabel : List Char → List Char → Option (List Char)
  | [], s => some s
  | _ :: _, [] => none
  | l :: ls, c :: cs => if c = l then stripLabel ls cs else none

/-- Try the regex at one position (`prev` is the character before it). -/
def csrfHere (prev : Option Char) (s : List Char) : Option String :=
  if boundaryBefore prev then
    match stripLabel "csrf-token=".toList s with
    | some rest =>
      if (rest.take 32).length == 32 && (rest.take 32).all isLowerHexChar &&
          boundaryAfter (rest.drop 32) then
        some (String.mk (rest.take 32))
      else none
    | none => none
  else none

/-- Leftmost regex match over the whole subject. -/
def findCsrf : Option Char → List Char → Option String
  | prev, [] => csrfHere prev []
  | prev, c :: cs =>
    match csrfHere prev (c :: cs) with
    | some t => some t
    | none => findCsrf (some c) cs

/-- The extracted CSRF token: `undefined` when there is no Cookie header or no
match. -/
def cookieCsrfToken (cookie : Option String) : Option String :=
  cookie.bind fun s => findCsrf none s.toList

/-! ## The two handlers and the router -/

/-- Data of a request as `handleAuth` reads it: the `site_id` query parameter
(`undefined` when absent). -/
structure AuthRequest where
  site_id : Option String
deriving DecidableEq

/-- Data of a request as `handleCallback` reads it: `code` and `state` query
parameters and the `Cookie` header. -/
structure CallbackRequest where
  code : Option String
  state : Option String
  cookie : Option String
deriving DecidableEq

/-- The JSON body of the provider's token response: optional `access_token`
and `error` fields. -/
structure TokenBody where
  access_token : Option String
  error : Option String
deriving DecidableEq

/-- Oracle for the outbound `fetch` of the token exchange (lines 176–203):
the call throws / yields no response, yields a response whose body is not JSON,
or yields a parsed JSON body. -/
inductive TokenExchangeResult where
  | noResponse
  | badJSON
  | ok (body : TokenBody)
deriving DecidableEq

/-- `handleAuth` (lines 61–118), with the random UUID as an oracle parameter. -/
def handleAuth (req : AuthRequest) (env : Env) (uuid : String) : Response :=
  if domainNotAllowed env req.site_id then
    outputHTML ⟨"github", none, some "Your domain is not allowed to use the authenticator.",
                some "UNSUPPORTED_DOMAIN"⟩
  else
    let csrfToken := removeDashes uuid
    if !(jsTruthy env.GITHUB_CLIENT_ID) || !(jsTruthy env.GITHUB_CLIENT_SECRET) then
      outputHTML ⟨"github", none, some "OAuth app client ID or secret is not configured.",
                  some "MISCONFIGURED_CLIENT"⟩
    else
      let authURL := "https://" ++ env.GITHUB_HOSTNAME.getD "github.com" ++
        "/login/oauth/authorize?" ++
        serializeParams [("client_id", env.GITHUB_CLIENT_ID.getD ""),
                         ("scope", "repo,user"),
                         ("state", csrfToken)]
      ⟨302, "",
       [("Location", authURL),
        ("Set-Cookie", "csrf-token=" ++ csrfToken ++
          "; HttpOnly; Path=/; Max-Age=600; SameSite=Lax; Secure")]⟩

/-- `handleCallback` (lines 126–206), with the token exchange as an oracle
parameter. -/
def handleCallback (req : CallbackRequest) (env : Env)
    (exchange : TokenExchangeResult) : Response :=
  let csrfToken := cookieCsrfToken req.cookie
  if !(jsTruthy req.code) || !(jsTruthy req.state) then
    outputHTML ⟨"github", none,
                some "Failed to receive an authorization code. Please try again later.",
                some "AUTH_CODE_REQUEST_FAILED"⟩
  else if !(jsTruthy csrfToken) || !(req.state == csrfToken) then
    outputHTML ⟨"github", none,
                some "Potential CSRF attack detected. Authentication flow aborted.",
                some "CSRF_DETECTED"⟩
  else if !(jsTruthy env.GITHUB_CLIENT_ID) || !(jsTruthy env.GITHUB_CLIENT_SECRET) then
    outputHTML ⟨"github", none,
                some "OAuth app client ID or secret is not configured.",
                some "MISCONFIGURED_CLIENT"⟩
  else
    match exchange with
    | TokenExchangeResult.noResponse =>
      outputHTML ⟨"github", none,
                  some "Failed to request an access token. Please try again later.",
                  some "TOKEN_REQUEST_FAILED"⟩
    | TokenExchangeResult.badJSON =>
      outputHTML ⟨"github", none,
                  some "Server responded with malformed data. Please try again later.",
                  some "MALFORMED_RESPONSE"⟩
    | TokenExchangeResult.ok body =>
      outputHTML ⟨"github", body.access_token, body.error, none⟩

/-- A full request as the top-level `fetch` handler sees it. -/
structure Request where
  method : String
  pathname : String
  site_id : Option String
  code : Option String
  state : Option String
  cookie : Option String
deriving DecidableEq

/-- The router (`fetch`, lines 217–230). -/
def mainFetch (req : Request) (env : Env) (uuid : String)
    (exchange : TokenExchangeResult) : Response :=
  if req.method = "GET" ∧ (req.pathname = "/oauth" ∨ req.pathname = "/oauth/authorize") then
    handleAuth ⟨req.site_id⟩ env uuid
  else if req.method = "GET" ∧ (req.pathname = "/callback" ∨ req.pathname = "/oauth/redirect") then
    handleCallback ⟨req.code, req.state, req.cookie⟩ env exchange
  else
    ⟨404, "", []⟩

/-! ## Lemmas about the pattern regex -/

lemma buildRegex_append (pre suf : List Char) (h : '*' ∉ pre) :
    buildRegex (pre ++ '*' :: suf) = pre.map Tok.lit ++ Tok.dotPlus :: suf.map Tok.lit := by
  induction pre with
  | nil => simp [buildRegex]
  | cons c cs ih =>
    have hc : c ≠ '*' := fun hc => h (hc ▸ List.mem_cons_self c cs)
    have hcs : '*' ∉ cs := fun hm => h (List.mem_cons_of_mem _ hm)
    simp [buildRegex, hc, ih hcs]

lemma tokMatch_lits (l d : List Char) :
    tokMatch (l.map Tok.lit) d = true ↔ d = l := by
  induction l generalizing d with
  | nil => cases d <;> simp [tokMatch]
  | cons c cs ih =>
    cases d with
    | nil => simp [tokMatch]
    | cons e es =>
      simp only [List.map_cons, tokMatch, Bool.and_eq_true, beq_iff_eq, ih, List.cons.injEq]
      exact ⟨fun hp => ⟨hp.1.symm, hp.2⟩, fun hp => ⟨hp.1.symm, hp.2⟩⟩

lemma tokMatch_lits_append (l : List Char) (ts : List Tok) (d : List Char) :
    tokMatch (l.map Tok.lit ++ ts) d = true ↔
      ∃ d', d = l ++ d' ∧ tokMatch ts d' = true := by
  induction l generalizing d with
  | nil => simp
  | cons c cs ih =>
    cases d with
    | nil => simp [tokMatch]
    | cons e es =>
      simp only [List.map_cons, List.cons_append, tokMatch, List.append_eq, Bool.and_eq_true,
        beq_iff_eq, ih]
      constructor
      · rintro ⟨hce, d', hes, hm⟩
        exact ⟨d', by rw [← hce, hes], hm⟩
      · rintro ⟨d', h2, hm⟩
        injection h2 with h3 h4
        exact ⟨h3.symm, d', h4, hm⟩

lemma tokMatch_dotPlus_lits (suf : List Char) (d : List Char) :
    tokMatch (Tok.dotPlus :: suf.map Tok.lit) d = true ↔
      ∃ mid, mid ≠ [] ∧ mid.all dotMatches = true ∧ d = mid ++ suf := by
  induction d with
  | nil =>
    simp only [tokMatch, Bool.false_eq_true, false_iff]
    rintro ⟨mid, hne, _, heq⟩
    cases mid with
    | nil => exact hne rfl
    | cons m ms => simp at heq
  | cons c ds ih =>
    simp only [tokMatch, Bool.and_eq_true, Bool.or_eq_true, tokMatch_lits, ih]
    constructor
    · rintro ⟨hdot, rfl | ⟨mid, hne, hall, rfl⟩⟩
      · exact ⟨[c], by simp, by simp [hdot], rfl⟩
      · exact ⟨c :: mid, by simp, by simp [hdot, hall], rfl⟩
    · rintro ⟨mid, hne, hall, heq⟩
      cases mid with
      | nil => exact absurd rfl hne
      | cons m ms =>
        simp only [List.cons_append, List.cons.injEq] at heq
        obtain ⟨rfl, rfl⟩ := heq
        simp only [List.all_cons, Bool.and_eq_true] at hall
        refine ⟨hall.1, ?_⟩
        cases ms with
        | nil => exact Or.inl (by simp)
        | cons n ns => exact Or.inr ⟨n :: ns, by simp, hall.2, rfl⟩

/-! ## Lemmas about cookie extraction -/

lemma csrfHere_hex {prev : Option Char} {s : List Char} {t : String}
    (h : csrfHere prev s = some t) : isHex32 t = true := by
  unfold csrfHere at h
  split at h
  · cases hst : stripLabel "csrf-token=".toList s with
    | none =>
      simp only [hst] at h
      exact Option.noConfusion h
    | some rest =>
      simp only [hst] at h
      split at h
      · next hguard =>
        injection h with h'
        subst h'
        simp only [Bool.and_eq_true] at hguard
        have h1 := hguard.1.1
        have h2 := hguard.1.2
        show ((rest.take 32).length == 32 && (rest.take 32).all isLowerHexChar) = true
        rw [h1, h2]
        rfl
      · exact absurd h (by simp)
  · exact absurd h (by simp)

lemma findCsrf_hex : ∀ (prev : Option Char) (s : List Char) (t : String),
    findCsrf prev s = some t → isHex32 t = true := by
  intro prev s
  induction s generalizing prev with
  | nil =>
    intro t h
    exact csrfHere_hex h
  | cons c cs ih =>
    intro t h
    simp only [findCsrf] at h
    cases hh : csrfHere prev (c :: cs) with
    | some u =>
      rw [hh] at h
      injection h with h'
      subst h'
      exact csrfHere_hex hh
    | none =>
      rw [hh] at h
      exact ih (some c) t h

lemma cookieCsrfToken_hex {cookie : Option String} {t : String}
    (h : cookieCsrfToken cookie = some t) : isHex32 t = true := by
  cases cookie with
  | none => simp [cookieCsrfToken] at h
  | some s =>
    simp only [cookieCsrfToken, Option.some_bind] at h
    exact findCsrf_hex none s.toList t h

/-- The CSRF branch of `handleCallback`: with truthy `code` and `state`, a
missing or different extracted cookie token yields the CSRF_DETECTED page. -/
lemma callback_csrf_reject (req : CallbackRequest) (env : Env) (exchange : TokenExchangeResult)
    (hc : jsTruthy req.code = true) (hs : jsTruthy req.state = true)
    (h : cookieCsrfToken req.cookie = none ∨ cookieCsrfToken req.cookie ≠ req.state) :
    handleCallback req env exchange =
      outputHTML ⟨"github", none,
        some "Potential CSRF attack detected. Authentication flow aborted.",
        some "CSRF_DETECTED"⟩ := by
  have hcond : (!(jsTruthy (cookieCsrfToken req.cookie)) ||
      !(req.state == cookieCsrfToken req.cookie)) = true := by
    rcases h with h | h
    · simp [h, jsTruthy]
    · rcases hnull : cookieCsrfToken req.cookie with _ | v
      · simp [jsTruthy]
      · rw [hnull] at h
        have hb : (req.state == some v) = false := beq_eq_false_iff_ne.mpr (Ne.symm h)
        simp [hb]
  simp [handleCallback, hc, hs, hcond]

/-! ## Lemmas about the CSRF token generation and URL encoding -/

lemma hexRun_filter (l : List Char) (h : l.all isLowerHexChar = true) :
    l.filter (fun c => !(c == '-')) = l := by
  induction l with
  | nil => rfl
  | cons c cs ih =>
    simp only [List.all_cons, Bool.and_eq_true] at h
    have hcd : (c == '-') = false := by
      cases hb : c == '-' with
      | false => rfl
      | true =>
        have hc := eq_of_beq hb
        subst hc
        exact absurd h.1 (by decide)
    simp [List.filter_cons, hcd, ih h.2]

lemma removeDashes_uuid {s : String} (h : IsUuid s) : isHex32 (removeDashes s) = true := by
  obtain ⟨a, b, c, d, e, hs, ha, hb, hc, hd, he, hall⟩ := h
  have hparts : a.all isLowerHexChar = true ∧ b.all isLowerHexChar = true ∧
      c.all isLowerHexChar = true ∧ d.all isLowerHexChar = true ∧
      e.all isLowerHexChar = true := by
    simpa [List.all_append, Bool.and_eq_true, and_assoc] using hall
  have hfilter : (uuidSegments a b c d e).filter (fun ch => !(ch == '-')) =
      a ++ (b ++ (c ++ (d ++ e))) := by
    simp only [uuidSegments, List.filter_append, List.filter_cons]
    rw [hexRun_filter a hparts.1, hexRun_filter b hparts.2.1, hexRun_filter c hparts.2.2.1,
      hexRun_filter d hparts.2.2.2.1, hexRun_filter e hparts.2.2.2.2]
    simp
  have hlist : (removeDashes s).toList = a ++ (b ++ (c ++ (d ++ e))) := by
    simp only [removeDashes, String.toList] at hs ⊢
    rw [hs, hfilter]
  simp only [isHex32, hlist, List.length_append, List.all_append, Bool.and_eq_true]
  rw [ha, hb, hc, hd, he]
  exact ⟨by decide, hparts.1, hparts.2.1, hparts.2.2.1, hparts.2.2.2.1, hparts.2.2.2.2⟩

lemma encodeChars_hex : ∀ l : List Char, l.all isLowerHexChar = true → encodeChars l = l := by
  intro l
  induction l with
  | nil => intro _; rfl
  | cons c cs ih =>
    intro h
    simp only [List.all_cons, Bool.and_eq_true] at h
    have h1 := h.1
    simp only [isLowerHexChar, Bool.or_eq_true, Bool.and_eq_true, decide_eq_true_eq] at h1
    have hn : c.toNat < 128 := by rcases h1 with ⟨_, h2⟩ | ⟨_, h2⟩ <;> omega
    have hbytes : utf8Bytes c = [c.toNat] := by
      unfold utf8Bytes
      rw [if_pos hn]
    have hsafe : formEncodeByte c.toNat = [Char.ofNat c.toNat] := by
      unfold formEncodeByte
      rw [if_neg (by rcases h1 with ⟨h2, _⟩ | ⟨h2, _⟩ <;> omega), if_pos]
      simp only [Bool.or_eq_true, Bool.and_eq_true, decide_eq_true_eq]
      omega
    simp [encodeChars, hbytes, encodeBytesList, hsafe, Char.ofNat_toNat, ih h.2]

lemma formEncode_hex {s : String} (h : s.toList.all isLowerHexChar = true) :
    formEncode s = s := by
  obtain ⟨l⟩ := s
  simp only [formEncode]
  rw [encodeChars_hex _ h]
  rfl

lemma removeDashes_hexList {s : String} (h : isHex32 (removeDashes s) = true) :
    (removeDashes s).toList.all isLowerHexChar = true := by
  simp only [isHex32, Bool.and_eq_true] at h
  exact h.2

/-! ## Claim theorems -/

/-- C1: for every allow-list pattern containing a wildcard (written as a
star-free part `pre`, the first `*`, and a remainder `suf`), the compiled
regex matches a domain exactly when the domain is `pre`, then one or more
characters (each matched by the `.` of the permissive token), then `suf` —
every regex metacharacter of the pattern having been escaped to a literal
and only the first wildcard replaced by the match-one-or-more token, with
the match anchored at both ends; in particular `*.example.com` matches
`blog.example.com` and `docs.api.example.com` but not `example.com`. -/
theorem wildcard_pattern_semantics :
    (∀ pre suf d : List Char, '*' ∉ pre →
      (tokMatch (buildRegex (pre ++ '*' :: suf)) d = true ↔
        ∃ mid, mid ≠ [] ∧ mid.all dotMatches = true ∧ d = pre ++ (mid ++ suf))) ∧
    patternMatches "*.example.com" "blog.example.com" = true ∧
    patternMatches "*.example.com" "docs.api.example.com" = true ∧
    patternMatches "*.example.com" "example.com" = false := by
  refine ⟨?_, by decide, by decide, by decide⟩
  intro pre suf d h
  rw [buildRegex_append pre suf h, tokMatch_lits_append]
  constructor
  · rintro ⟨d', rfl, hm⟩
    obtain ⟨mid, hne, hall, rfl⟩ := (tokMatch_dotPlus_lits suf d').mp hm
    exact ⟨mid, hne, hall, rfl⟩
  · rintro ⟨mid, hne, hall, rfl⟩
    exact ⟨mid ++ suf, rfl, (tokMatch_dotPlus_lits suf _).mpr ⟨mid, hne, hall, rfl⟩⟩

/-- Witness for C1: the characterization instantiated on the pattern `w*c`
and the domain `wxyc`. -/
theorem wildcard_pattern_semantics_witness :
    tokMatch (buildRegex (['w'] ++ '*' :: ['c'])) ['w', 'x', 'y', 'c'] = true :=
  (wildcard_pattern_semantics.1 ['w'] ['c'] ['w', 'x', 'y', 'c'] (by decide)).mpr
    ⟨['x', 'y'], by decide, by decide, by decide⟩

/-- C2: a callback missing `code` or `state` (absent or empty, hence falsy)
is answered with the AUTH_CODE_REQUEST_FAILED page, for every environment,
Cookie header and exchange outcome — in particular the check precedes the
CSRF check, so it wins even when the CSRF condition would also fail. -/
theorem callback_missing_params (req : CallbackRequest) (env : Env)
    (exchange : TokenExchangeResult)
    (h : jsTruthy req.code = false ∨ jsTruthy req.state = false) :
    handleCallback req env exchange =
      outputHTML ⟨"github", none,
        some "Failed to receive an authorization code. Please try again later.",
        some "AUTH_CODE_REQUEST_FAILED"⟩ := by
  have hcond : (!(jsTruthy req.code) || !(jsTruthy req.state)) = true := by
    rcases h with h | h <;> simp [h]
  simp [handleCallback, hcond]

/-- Witness for C2: missing `code`, with a `state` whose CSRF comparison
would also fail (no cookie at all). -/
theorem callback_missing_params_witness :
    handleCallback ⟨none, some "anything", none⟩ ⟨none, some "id", some "secret", none⟩
        TokenExchangeResult.noResponse =
      outputHTML ⟨"github", none,
        some "Failed to receive an authorization code. Please try again later.",
        some "AUTH_CODE_REQUEST_FAILED"⟩ :=
  callback_missing_params _ _ _ (Or.inl (by decide))

/-- C3: with `code` and `state` both present (truthy), if no CSRF token was
extracted from the Cookie header, or the extracted token differs from
`state`, the callback is answered with the CSRF_DETECTED page for every
exchange outcome (so the token exchange is never consulted), regardless of
the value of `code`. -/
theorem callback_csrf_detected (req : CallbackRequest) (env : Env)
    (exchange : TokenExchangeResult)
    (hc : jsTruthy req.code = true) (hs : jsTruthy req.state = true)
    (h : cookieCsrfToken req.cookie = none ∨ cookieCsrfToken req.cookie ≠ req.state) :
    handleCallback req env exchange =
      outputHTML ⟨"github", none,
        some "Potential CSRF attack detected. Authentication flow aborted.",
        some "CSRF_DETECTED"⟩ :=
  callback_csrf_reject req env exchange hc hs h

/-- Witness for C3: a plausible `code`, but `state` differing from the
cookie's token. -/
theorem callback_csrf_detected_witness :
    handleCallback
        ⟨some "goodcode", some "00000000000000000000000000000000",
         some "csrf-token=0123456789abcdef0123456789abcdef"⟩
        ⟨none, some "id", some "secret", none⟩
        (TokenExchangeResult.ok ⟨some "tok", none⟩) =
      outputHTML ⟨"github", none,
        some "Potential CSRF attack detected. Authentication flow aborted.",
        some "CSRF_DETECTED"⟩ :=
  callback_csrf_detected _ _ _ (by decide) (by decide) (Or.inr (by decide))

/-- C4 counterexample: the claim fails on the code — the 404 not-found
response carries no headers at all (hence no Set-Cookie deleting the
`csrf-token` cookie), and the 302 redirect of the Authorization Initiator
carries no header whose value is the deleting cookie either (its
`Set-Cookie` sets the token with `Max-Age=600`). -/
theorem not_every_response_deletes_cookie :
    (mainFetch ⟨"POST", "/oauth", none, none, none, none⟩ ⟨none, none, none, none⟩ ""
        TokenExchangeResult.noResponse).headers = [] ∧
    (handleAuth ⟨some "blog.example.com"⟩
        ⟨some "*.example.com", some "id", some "secret", none⟩
        "01234567-89ab-cdef-0123-456789abcdef").headers.all
      (fun hd =>
        !(hd.2 == "csrf-token=deleted; HttpOnly; Max-Age=0; Path=/; SameSite=Lax; Secure")) =
      true :=
  ⟨by decide, by decide⟩

/-- C4 amended: every response produced by the Response Renderer
(`outputHTML`) — that is, every success or error page, but not the 302
redirect (which sets the cookie with `Max-Age=600`) nor the 404 response
(which has no headers) — includes a Set-Cookie header deleting the
`csrf-token` cookie with `Max-Age=0`. -/
theorem renderer_always_deletes_cookie (args : OutputArgs) :
    ("Set-Cookie", "csrf-token=deleted; HttpOnly; Max-Age=0; Path=/; SameSite=Lax; Secure") ∈
      (outputHTML args).headers := by
  simp [outputHTML]

/-- C5: when a non-empty allow-list is configured and the requesting domain
matches none of its comma-separated patterns, the initiator responds with
the UNSUPPORTED_DOMAIN error page — whose JSON payload carries that error
code — and the response has no Location header, whatever the provider
credentials are. -/
theorem auth_unsupported_domain (req : AuthRequest) (env : Env) (uuid : String)
    (h1 : jsTruthy env.ALLOWED_DOMAINS = true)
    (h2 : ∀ p ∈ (splitComma (env.ALLOWED_DOMAINS.getD "").toList).map String.mk,
        patternMatches p (req.site_id.getD "") = false) :
    handleAuth req env uuid =
      outputHTML ⟨"github", none,
        some "Your domain is not allowed to use the authenticator.",
        some "UNSUPPORTED_DOMAIN"⟩ ∧
    (handleAuth req env uuid).headers.all (fun hd => !(hd.1 == "Location")) = true ∧
    renderContent ⟨"github", none,
        some "Your domain is not allowed to use the authenticator.",
        some "UNSUPPORTED_DOMAIN"⟩ =
      "\x7b\"provider\":\"github\",\"error\":\"Your domain is not allowed to use the authenticator.\",\"errorCode\":\"UNSUPPORTED_DOMAIN\"\x7d" := by
  have hany : ((splitComma (env.ALLOWED_DOMAINS.getD "").toList).map String.mk).any
      (fun str => patternMatches str (req.site_id.getD "")) = false := by
    rw [Bool.eq_false_iff]
    intro hmem
    simp only [List.any_eq_true] at hmem
    obtain ⟨p, hp, hmatch⟩ := hmem
    rw [h2 p hp] at hmatch
    exact Bool.false_ne_true hmatch
  have hif : domainNotAllowed env req.site_id = true := by
    unfold domainNotAllowed
    rw [h1, hany]
    rfl
  have hmain : handleAuth req env uuid =
      outputHTML ⟨"github", none,
        some "Your domain is not allowed to use the authenticator.",
        some "UNSUPPORTED_DOMAIN"⟩ := by
    simp [handleAuth, hif]
  refine ⟨hmain, ?_, by decide⟩
  rw [hmain]
  decide

/-- Witness for C5: allow-list `*.example.com, www.example.org`, domain
`example.com` (the wildcard does not match the bare apex domain). -/
theorem auth_unsupported_domain_witness :
    handleAuth ⟨some "example.com"⟩
        ⟨some "*.example.com, www.example.org", some "id", some "secret", none⟩
        "01234567-89ab-cdef-0123-456789abcdef" =
      outputHTML ⟨"github", none,
        some "Your domain is not allowed to use the authenticator.",
        some "UNSUPPORTED_DOMAIN"⟩ :=
  (auth_unsupported_domain _ _ _ (by decide) (by decide)).1

/-- C6: for an initiator request that passes the allow-list check, with
client id and secret configured, the response is a 302 whose Location is
`https://<hostname>/login/oauth/authorize` followed by the serialized query
`client_id=…&scope=repo%2Cuser&state=<token>` (`%2C` being the
form-encoding of the comma of `repo,user`), where the token is the UUID
with dashes removed — a 32-character lowercase-hex string — and whose
Set-Cookie header sets `csrf-token` to that same token with `HttpOnly`,
`Path=/`, `Max-Age=600`, `SameSite=Lax` and `Secure`. -/
theorem auth_redirect (req : AuthRequest) (env : Env) (uuid : String)
    (hdom : domainNotAllowed env req.site_id = false)
    (hid : jsTruthy env.GITHUB_CLIENT_ID = true)
    (hsec : jsTruthy env.GITHUB_CLIENT_SECRET = true)
    (hu : IsUuid uuid) :
    handleAuth req env uuid =
      ⟨302, "",
       [("Location", "https://" ++ env.GITHUB_HOSTNAME.getD "github.com" ++
          "/login/oauth/authorize?" ++
          serializeParams [("client_id", env.GITHUB_CLIENT_ID.getD ""),
                           ("scope", "repo,user"),
                           ("state", removeDashes uuid)]),
        ("Set-Cookie", "csrf-token=" ++ removeDashes uuid ++
          "; HttpOnly; Path=/; Max-Age=600; SameSite=Lax; Secure")]⟩ ∧
    serializeParams [("client_id", env.GITHUB_CLIENT_ID.getD ""),
                     ("scope", "repo,user"),
                     ("state", removeDashes uuid)] =
      "client_id" ++ "=" ++ formEncode (env.GITHUB_CLIENT_ID.getD "") ++ "&" ++
        ("scope" ++ "=" ++ "repo%2Cuser" ++ "&" ++
          ("state" ++ "=" ++ removeDashes uuid)) ∧
    isHex32 (removeDashes uuid) = true := by
  have hhex := removeDashes_uuid hu
  have hfe : formEncode (removeDashes uuid) = removeDashes uuid :=
    formEncode_hex (removeDashes_hexList hhex)
  have e1 : formEncode "client_id" = "client_id" := by decide
  have e2 : formEncode "scope" = "scope" := by decide
  have e3 : formEncode "repo,user" = "repo%2Cuser" := by decide
  have e4 : formEncode "state" = "state" := by decide
  refine ⟨?_, ?_, hhex⟩
  · simp [handleAuth, hdom, hid, hsec]
  · simp only [serializeParams]
    rw [e1, e2, e3, e4, hfe]

/-- Witness for C6: `site_id=blog.example.com` against allow-list
`*.example.com`, with configured credentials and a concrete UUID. -/
theorem auth_redirect_witness :
    handleAuth ⟨some "blog.example.com"⟩
        ⟨some "*.example.com", some "myid", some "mysecret", none⟩
        "01234567-89ab-cdef-0123-456789abcdef" =
      ⟨302, "",
       [("Location",
         "https://github.com/login/oauth/authorize?client_id=myid&scope=repo%2Cuser&state=0123456789abcdef0123456789abcdef"),
        ("Set-Cookie",
         "csrf-token=0123456789abcdef0123456789abcdef; HttpOnly; Path=/; Max-Age=600; SameSite=Lax; Secure")]⟩ :=
  Eq.trans
    (auth_redirect ⟨some "blog.example.com"⟩
      ⟨some "*.example.com", some "myid", some "mysecret", none⟩
      "01234567-89ab-cdef-0123-456789abcdef" (by decide) (by decide) (by decide)
      ⟨"01234567".toList, "89ab".toList, "cdef".toList, "0123".toList, "456789abcdef".toList,
       by decide, by decide, by decide, by decide, by decide, by decide, by decide⟩).1
    (by decide)

/-- C7: once a callback carries truthy `code` and `state`, the extracted CSRF
token equals `state`, and credentials are configured, the three exchange
outcomes map to: no response obtained → TOKEN_REQUEST_FAILED; body not
parseable as JSON → MALFORMED_RESPONSE; parsed body → its `access_token`
and `error` fields passed verbatim to the renderer with no `errorCode`
attached. -/
theorem callback_exchange_outcomes (req : CallbackRequest) (env : Env)
    (hc : jsTruthy req.code = true) (hs : jsTruthy req.state = true)
    (ht : cookieCsrfToken req.cookie = req.state)
    (hid : jsTruthy env.GITHUB_CLIENT_ID = true)
    (hsec : jsTruthy env.GITHUB_CLIENT_SECRET = true) :
    handleCallback req env TokenExchangeResult.noResponse =
      outputHTML ⟨"github", none,
        some "Failed to request an access token. Please try again later.",
        some "TOKEN_REQUEST_FAILED"⟩ ∧
    handleCallback req env TokenExchangeResult.badJSON =
      outputHTML ⟨"github", none,
        some "Server responded with malformed data. Please try again later.",
        some "MALFORMED_RESPONSE"⟩ ∧
    ∀ body : TokenBody, handleCallback req env (TokenExchangeResult.ok body) =
      outputHTML ⟨"github", body.access_token, body.error, none⟩ := by
  have ht' : jsTruthy (cookieCsrfToken req.cookie) = true := by rw [ht]; exact hs
  have heq : (req.state == cookieCsrfToken req.cookie) = true := by
    rw [ht]
    exact beq_self_eq_true _
  refine ⟨?_, ?_, fun body => ?_⟩ <;>
    simp [handleCallback, hc, hs, ht', heq, hid, hsec]

/-- Witness for C7: a matching 32-hex cookie and state, configured
credentials, and all three exchange outcomes. -/
theorem callback_exchange_outcomes_witness :
    handleCallback ⟨some "abc", some "0123456789abcdef0123456789abcdef",
        some "csrf-token=0123456789abcdef0123456789abcdef"⟩
        ⟨none, some "id", some "secret", none⟩ TokenExchangeResult.noResponse =
      outputHTML ⟨"github", none,
        some "Failed to request an access token. Please try again later.",
        some "TOKEN_REQUEST_FAILED"⟩ ∧
    handleCallback ⟨some "abc", some "0123456789abcdef0123456789abcdef",
        some "csrf-token=0123456789abcdef0123456789abcdef"⟩
        ⟨none, some "id", some "secret", none⟩ TokenExchangeResult.badJSON =
      outputHTML ⟨"github", none,
        some "Server responded with malformed data. Please try again later.",
        some "MALFORMED_RESPONSE"⟩ ∧
    handleCallback ⟨some "abc", some "0123456789abcdef0123456789abcdef",
        some "csrf-token=0123456789abcdef0123456789abcdef"⟩
        ⟨none, some "id", some "secret", none⟩
        (TokenExchangeResult.ok ⟨some "tok123", none⟩) =
      outputHTML ⟨"github", some "tok123", none, none⟩ := by
  have h := callback_exchange_outcomes
    ⟨some "abc", some "0123456789abcdef0123456789abcdef",
     some "csrf-token=0123456789abcdef0123456789abcdef"⟩
    ⟨none, some "id", some "secret", none⟩
    (by decide) (by decide) (by decide) (by decide) (by decide)
  exact ⟨h.1, h.2.1, h.2.2 ⟨some "tok123", none⟩⟩

/-- C8: the router sends GET `/oauth` and GET `/oauth/authorize` to the
Authorization Initiator, GET `/callback` and GET `/oauth/redirect` to the
Callback Handler, and answers every other method/path combination with a
response of status 404, empty body and no headers. -/
theorem router_dispatch (req : Request) (env : Env) (uuid : String)
    (exchange : TokenExchangeResult) :
    (req.method = "GET" ∧ (req.pathname = "/oauth" ∨ req.pathname = "/oauth/authorize") →
      mainFetch req env uuid exchange = handleAuth ⟨req.site_id⟩ env uuid) ∧
    (req.method = "GET" ∧ (req.pathname = "/callback" ∨ req.pathname = "/oauth/redirect") →
      mainFetch req env uuid exchange =
        handleCallback ⟨req.code, req.state, req.cookie⟩ env exchange) ∧
    (¬(req.method = "GET" ∧ (req.pathname = "/oauth" ∨ req.pathname = "/oauth/authorize")) →
      ¬(req.method = "GET" ∧ (req.pathname = "/callback" ∨ req.pathname = "/oauth/redirect")) →
      mainFetch req env uuid exchange = ⟨404, "", []⟩) := by
  refine ⟨fun h => ?_, fun h => ?_, fun h1 h2 => ?_⟩
  · unfold mainFetch
    rw [if_pos h]
  · have hne : ¬(req.method = "GET" ∧
        (req.pathname = "/oauth" ∨ req.pathname = "/oauth/authorize")) := by
      rintro ⟨hm, hp | hp⟩ <;> rcases h.2 with hp2 | hp2 <;>
        (rw [hp] at hp2; exact absurd hp2 (by decide))
    unfold mainFetch
    rw [if_neg hne, if_pos h]
  · unfold mainFetch
    rw [if_neg h1, if_neg h2]

/-- Witness for C8: the router evaluated on one request of each kind. -/
theorem router_dispatch_witness :
    mainFetch ⟨"GET", "/oauth", some "d", none, none, none⟩ ⟨none, none, none, none⟩ "u"
        TokenExchangeResult.noResponse =
      handleAuth ⟨some "d"⟩ ⟨none, none, none, none⟩ "u" ∧
    mainFetch ⟨"GET", "/oauth/redirect", none, some "c", some "s", some "k"⟩
        ⟨none, none, none, none⟩ "u" TokenExchangeResult.noResponse =
      handleCallback ⟨some "c", some "s", some "k"⟩ ⟨none, none, none, none⟩
        TokenExchangeResult.noResponse ∧
    mainFetch ⟨"POST", "/callback", none, none, none, none⟩ ⟨none, none, none, none⟩ "u"
        TokenExchangeResult.noResponse = ⟨404, "", []⟩ :=
  ⟨(router_dispatch ⟨"GET", "/oauth", some "d", none, none, none⟩ _ _ _).1
      (by exact ⟨rfl, Or.inl rfl⟩),
   (router_dispatch ⟨"GET", "/oauth/redirect", none, some "c", some "s", some "k"⟩ _ _ _).2.1
      (by exact ⟨rfl, Or.inr rfl⟩),
   (router_dispatch ⟨"POST", "/callback", none, none, none, none⟩ _ _ _).2.2
      (by rintro ⟨hm, _⟩; exact absurd hm (by decide))
      (by rintro ⟨hm, _⟩; exact absurd hm (by decide))⟩

/-- C9 (implicit): when the parsed token-exchange body has no `access_token`
field and no truthy `error` field, the callback answers through the renderer
with an undefined token and the falsy error: the posted message has the
success state and its JSON payload holds only the provider — no token field
at all. -/
theorem callback_no_token_success (req : CallbackRequest) (env : Env) (body : TokenBody)
    (hc : jsTruthy req.code = true) (hs : jsTruthy req.state = true)
    (ht : cookieCsrfToken req.cookie = req.state)
    (hid : jsTruthy env.GITHUB_CLIENT_ID = true)
    (hsec : jsTruthy env.GITHUB_CLIENT_SECRET = true)
    (hta : body.access_token = none) (he : jsTruthy body.error = false) :
    handleCallback req env (TokenExchangeResult.ok body) =
      outputHTML ⟨"github", none, body.error, none⟩ ∧
    renderState ⟨"github", none, body.error, none⟩ = "success" ∧
    renderContent ⟨"github", none, body.error, none⟩ = "\x7b\"provider\":\"github\"\x7d" ∧
    messageString ⟨"github", none, body.error, none⟩ =
      "authorization:github:success:" ++ "\x7b\"provider\":\"github\"\x7d" := by
  have ht' : jsTruthy (cookieCsrfToken req.cookie) = true := by rw [ht]; exact hs
  have heq : (req.state == cookieCsrfToken req.cookie) = true := by
    rw [ht]
    exact beq_self_eq_true _
  have herr : body.error = none ∨ body.error = some "" := by
    cases hbe : body.error with
    | none => exact Or.inl rfl
    | some s =>
      right
      rw [hbe] at he
      simp only [jsTruthy] at he
      have hb : (s == "") = true := by
        cases hb2 : s == "" with
        | true => rfl
        | false => rw [hb2] at he; exact absurd he (by decide)
      rw [eq_of_beq hb]
  refine ⟨?_, ?_, ?_, ?_⟩
  · simp [handleCallback, hc, hs, ht', heq, hid, hsec, hta]
  · rcases herr with herr | herr <;> rw [herr] <;> decide
  · rcases herr with herr | herr <;> rw [herr] <;> decide
  · rcases herr with herr | herr <;> rw [herr] <;> decide

/-- Witness for C9: provider answers `{}` (no `access_token`, no `error`). -/
theorem callback_no_token_success_witness :
    handleCallback ⟨some "abc", some "0123456789abcdef0123456789abcdef",
        some "csrf-token=0123456789abcdef0123456789abcdef"⟩
        ⟨none, some "id", some "secret", none⟩
        (TokenExchangeResult.ok ⟨none, none⟩) =
      outputHTML ⟨"github", none, none, none⟩ ∧
    messageString ⟨"github", none, none, none⟩ =
      "authorization:github:success:" ++ "\x7b\"provider\":\"github\"\x7d" := by
  have h := callback_no_token_success
    ⟨some "abc", some "0123456789abcdef0123456789abcdef",
     some "csrf-token=0123456789abcdef0123456789abcdef"⟩
    ⟨none, some "id", some "secret", none⟩ ⟨none, none⟩
    (by decide) (by decide) (by decide) (by decide) (by decide) rfl rfl
  exact ⟨h.1, h.2.2.2⟩

set_option maxRecDepth 16384 in
/-- C10 counterexample: the claim fails on the code — a `csrf-token` cookie
whose value `0123456789abcdef0123456789abcdef-x` is not exactly 32 lowercase
hex characters is NOT treated as if no cookie were present: the regex still
extracts its 32-hex prefix (delimited by a word boundary), so a `state`
equal to that prefix passes the CSRF check and the exchange proceeds,
whereas an absent cookie would have produced CSRF_DETECTED. -/
theorem nonhex_cookie_not_ignored :
    cookieCsrfToken (some "csrf-token=0123456789abcdef0123456789abcdef-x") =
      some "0123456789abcdef0123456789abcdef" ∧
    isHex32 "0123456789abcdef0123456789abcdef-x" = false ∧
    handleCallback ⟨some "abc", some "0123456789abcdef0123456789abcdef",
        some "csrf-token=0123456789abcdef0123456789abcdef-x"⟩
        ⟨none, some "id", some "secret", none⟩
        (TokenExchangeResult.ok ⟨some "tok", none⟩) =
      outputHTML ⟨"github", some "tok", none, none⟩ ∧
    handleCallback ⟨some "abc", some "0123456789abcdef0123456789abcdef", none⟩
        ⟨none, some "id", some "secret", none⟩
        (TokenExchangeResult.ok ⟨some "tok", none⟩) =
      outputHTML ⟨"github", none,
        some "Potential CSRF attack detected. Authentication flow aborted.",
        some "CSRF_DETECTED"⟩ :=
  ⟨by decide, by decide, by decide, by decide⟩

/-- C10 amended: the token extracted from the Cookie header is always exactly
32 lowercase hex characters; consequently, whenever the `state` parameter is
not such a string — e.g. uppercase hex or a different length, even when the
cookie's value equals it character for character — the callback answers
CSRF_DETECTED.  (A cookie value that is not itself 32 lowercase hex may
still yield a token when it contains a word-boundary-delimited 32-hex run.) -/
theorem callback_nonhex_state_csrf :
    (∀ (cookie : Option String) (t : String),
      cookieCsrfToken cookie = some t → isHex32 t = true) ∧
    (∀ (req : CallbackRequest) (env : Env) (exchange : TokenExchangeResult),
      jsTruthy req.code = true → jsTruthy req.state = true →
      (∀ s, req.state = some s → isHex32 s = false) →
      handleCallback req env exchange =
        outputHTML ⟨"github", none,
          some "Potential CSRF attack detected. Authentication flow aborted.",
          some "CSRF_DETECTED"⟩) := by
  refine ⟨fun cookie t h => cookieCsrfToken_hex h, ?_⟩
  intro req env exchange hc hs hbad
  apply callback_csrf_reject req env exchange hc hs
  cases ht : cookieCsrfToken req.cookie with
  | none => exact Or.inl rfl
  | some v =>
    refine Or.inr ?_
    intro hv
    have h1 : isHex32 v = true := cookieCsrfToken_hex ht
    have h2 : isHex32 v = false := hbad v hv.symm
    rw [h1] at h2
    exact absurd h2 (by decide)

/-- Witness for C10 (amended): an uppercase 32-hex state equal, character
for character, to the cookie's value. -/
theorem callback_nonhex_state_csrf_witness :
    isHex32 "0123456789abcdef0123456789abcdef" = true ∧
    handleCallback ⟨some "abc", some "0123456789ABCDEF0123456789ABCDEF",
        some "csrf-token=0123456789ABCDEF0123456789ABCDEF"⟩
        ⟨none, some "id", some "secret", none⟩
        (TokenExchangeResult.ok ⟨some "tok", none⟩) =
      outputHTML ⟨"github", none,
        some "Potential CSRF attack detected. Authentication flow aborted.",
        some "CSRF_DETECTED"⟩ :=
  ⟨callback_nonhex_state_csrf.1 (some "csrf-token=0123456789abcdef0123456789abcdef")
      "0123456789abcdef0123456789abcdef" (by decide),
   callback_nonhex_state_csrf.2
      ⟨some "abc", some "0123456789ABCDEF0123456789ABCDEF",
       some "csrf-token=0123456789ABCDEF0123456789ABCDEF"⟩
      ⟨none, some "id", some "secret", none⟩
      (TokenExchangeResult.ok ⟨some "tok", none⟩)
      (by decide) (by decide)
      (by intro s hsv; injection hsv with h3; rw [← h3]; decide)⟩

end SveltiaAuth
